import Mathlib

/-!
Shallow embedding of the agent-loop and context-assembly core of the
`ia-bootcamp-2005` repository:

* `src/agentlab/core/llm_interface.py` — `LangChainLLM.chat_with_tools`,
  the ReAct-style agent loop;
* `src/agentlab/mcp/registry.py` — `MCPToolRegistry`;
* `src/agentlab/core/context_builder.py` — `ContextBuilder.build_context`,
  `format_for_prompt`, `_estimate_tokens` and the formatting helpers;
* the dataclasses of `src/agentlab/models/__init__.py`.

External collaborators are modelled as parameters: the LLM is an oracle
mapping the current message list to a response; a tool's `execute` is a
function from its arguments to `Except String` (a raised exception is the
`.error` case); the tiktoken encoder is an arbitrary function
`String → Nat` applied through `count_tokens`.  Wall-clock timestamps
(`datetime.now()`) are abstracted: `ToolResult.timestamp` is an optional
pre-rendered string and the loop leaves it unset, since no verified
property depends on time.
-/

namespace AgentLab

/-! ### Python dynamic values

Tool argument maps and tool result dictionaries are Python `dict[str, Any]`
values.  We model the dynamic values that actually flow through this core:
booleans, ints, strings, `None`, lists and string-keyed dicts. -/

inductive PyVal where
  | pbool (b : Bool)
  | pint (n : Int)
  | pstr (s : String)
  | pnone
  | plist (xs : List PyVal)
  | pdict (xs : List (String × PyVal))
deriving Repr

/-- A Python `dict[str, Any]` with insertion order, as a key/value list. -/
abbrev PyDict := List (String × PyVal)

/-- `d.get(k)` returning `none` when the key is absent. -/
def dictGet (d : PyDict) (k : String) : Option PyVal :=
  (d.find? (fun kv => kv.1 == k)).map (fun kv => kv.2)

/-- `d.get(k, default)`. -/
def dictGetD (d : PyDict) (k : String) (default : PyVal) : PyVal :=
  (dictGet d k).getD default

/-- Python truthiness of a dynamic value. -/
def pyTruthy : PyVal → Bool
  | .pbool b => b
  | .pint n => n != 0
  | .pstr s => !s.isEmpty
  | .pnone => false
  | .plist xs => !xs.isEmpty
  | .pdict xs => !xs.isEmpty

mutual

/-- Python `repr` of a dynamic value (strings quoted), used for values
nested inside containers. -/
def pyValRepr : PyVal → String
  | .pbool true => "True"
  | .pbool false => "False"
  | .pint n => toString n
  | .pstr s => "\x27" ++ s ++ "\x27"
  | .pnone => "None"
  | .plist xs => "[" ++ pyValListRepr xs ++ "]"
  | .pdict xs => "\x7b" ++ pyDictRepr xs ++ "\x7d"

/-- `repr` of the elements of a list, comma separated. -/
def pyValListRepr : List PyVal → String
  | [] => ""
  | [x] => pyValRepr x
  | x :: y :: xs => pyValRepr x ++ ", " ++ pyValListRepr (y :: xs)

/-- `repr` of the items of a dict, comma separated. -/
def pyDictRepr : List (String × PyVal) → String
  | [] => ""
  | [(k, v)] => "\x27" ++ k ++ "\x27: " ++ pyValRepr v
  | (k, v) :: kv :: xs =>
      "\x27" ++ k ++ "\x27: " ++ pyValRepr v ++ ", " ++ pyDictRepr (kv :: xs)

end

/-- Python `str` of a dynamic value (top-level strings unquoted, as in
f-string interpolation). -/
def pyValStr : PyVal → String
  | .pstr s => s
  | v => pyValRepr v

/-- Python `str` of a `list[str]` such as `['a', 'b']`. -/
def pyStrStrList (xs : List String) : String :=
  "[" ++ String.intercalate ", " (xs.map (fun s => "\x27" ++ s ++ "\x27")) ++ "]"

/-- Python `str` of an `Optional[list[str]]` (`None` when absent). -/
def pyStrOptStrList : Option (List String) → String
  | none => "None"
  | some xs => pyStrStrList xs

/-! ### Data models (`src/agentlab/models/__init__.py`) -/

/-- `ChatMessage.role`, a closed literal type in the source. -/
inductive Role where
  | user
  | assistant
  | system
deriving DecidableEq, Repr

/-- `ChatMessage` dataclass (timestamp/metadata carry no verified
behavior and are omitted). -/
structure ChatMessage where
  role : Role
  content : String
deriving Repr

/-- `ToolCall` dataclass. -/
structure ToolCall where
  id : String
  name : String
  args : PyDict
deriving Repr

/-- `ToolResult` dataclass.  `success` and `error` are stored exactly as
the loop computes them from the tool's returned dict (`result.get(...)`),
so they are dynamic values, with `pnone` playing Python's `None`.
`timestamp` abstracts `datetime.now()` as an optional pre-rendered
string. -/
structure ToolResult where
  tool_call_id : String
  tool_name : String
  result : PyDict
  success : PyVal
  error : PyVal := .pnone
  timestamp : Option String := none
deriving Repr

/-- `AgentStep.action` literal type. -/
inductive AgentAction where
  | tool_call
  | final_answer
deriving DecidableEq, Repr

/-- `AgentStep` dataclass. -/
structure AgentStep where
  step_number : Nat
  action : AgentAction
  tool_call : Option ToolCall := none
  tool_result : Option ToolResult := none
  reasoning : Option String := none
deriving Repr

/-- `MemoryContext` dataclass (fields used by `ContextBuilder`). -/
structure MemoryContext where
  session_id : String := ""
  short_term_context : String := ""
  semantic_facts : List String := []
  user_profile : PyDict := []
  episodic_summary : Option String := none
  procedural_patterns : Option (List String) := none
deriving Repr

/-- `RAGResult` dataclass.  Each source is a `dict[str, Any]`. -/
structure RAGResult where
  success : Bool
  response : String := ""
  sources : List PyDict := []
  error_message : Option String := none
deriving Repr

/-! ### Python exceptions surfaced by this core -/

/-- The exception classes distinguished by `chat_with_tools` and the
registry: `ValueError` (validation), `KeyError` (registry lookup), and
`RuntimeError` (the catch-all wrapper). -/
inductive PyError where
  | valueError (msg : String)
  | keyError (msg : String)
  | runtimeError (msg : String)
deriving DecidableEq, Repr

/-! ### Tool registry (`src/agentlab/mcp/registry.py`) -/

/-- A registered MCP tool: its unique name and its `execute` coroutine.
A raised exception is modelled as `.error` carrying `str(e)`. -/
structure MCPTool where
  name : String
  execute : PyDict → Except String PyDict

/-- `MCPToolRegistry`: the `_tools` dict in insertion order. -/
structure MCPToolRegistry where
  tools : List (String × MCPTool)

/-- `MCPToolRegistry.get_tool`. -/
def MCPToolRegistry.get_tool (r : MCPToolRegistry) (name : String) : Option MCPTool :=
  (r.tools.find? (fun kv => kv.1 == name)).map (fun kv => kv.2)

/-- `MCPToolRegistry.has_tool`. -/
def MCPToolRegistry.has_tool (r : MCPToolRegistry) (name : String) : Bool :=
  (r.tools.find? (fun kv => kv.1 == name)).isSome

/-- `MCPToolRegistry.list_tools`. -/
def MCPToolRegistry.list_tools (r : MCPToolRegistry) : List String :=
  r.tools.map (fun kv => kv.1)

/-- The named-subset path of `get_langchain_tools`: walk the requested
names in order, raising `KeyError` at the first missing one.  A bound
LangChain tool is represented by the tool's name. -/
def getLangchainToolsNamed (r : MCPToolRegistry) : List String → Except PyError (List String)
  | [] => .ok []
  | name :: rest =>
    if r.has_tool name then
      (getLangchainToolsNamed r rest).map (fun ts => name :: ts)
    else
      .error (.keyError ("Tool \x27" ++ name ++ "\x27 not found in registry"))

/-- `MCPToolRegistry.get_langchain_tools`: all tools when `tool_names` is
`None`, otherwise the requested subset (`KeyError` on a missing name). -/
def MCPToolRegistry.get_langchain_tools (r : MCPToolRegistry)
    (tool_names : Option (List String)) : Except PyError (List String) :=
  match tool_names with
  | none => .ok (r.tools.map (fun kv => kv.1))
  | some names => getLangchainToolsNamed r names

/-! ### The agent loop (`LangChainLLM.chat_with_tools`) -/

/-- One tool call parsed from an LLM response
(`response.tool_calls` entries: `{id, name, args}`). -/
structure ToolCallData where
  id : String
  name : String
  args : PyDict
deriving Repr

/-- One LLM response: its text content and parsed tool calls. -/
structure LLMResponse where
  content : String
  tool_calls : List ToolCallData
deriving Repr

/-- The LangChain message list the loop threads through its LLM calls. -/
inductive LCMessage where
  | human (content : String)
  | ai (content : String) (tool_calls : List ToolCallData)
  | system (content : String)
  | tool (content : String) (tool_call_id : String)
deriving Repr

/-- The external LLM collaborator: `withTools` models
`llm_with_tools.ainvoke` (the bound tool names are passed through from
`bind_tools`); `noTools` models the plain `llm.ainvoke` used for the
forced final answer. -/
structure LLMOracle where
  withTools : List String → List LCMessage → LLMResponse
  noTools : List LCMessage → LLMResponse

/-- `LangChainLLM._convert_messages`. -/
def convert_messages (messages : List ChatMessage) : List LCMessage :=
  messages.map (fun m =>
    match m.role with
    | .user => .human m.content
    | .assistant => .ai m.content []
    | .system => .system m.content)

/-- The loop-local state of `chat_with_tools`: the growing LangChain
message list, the accumulated `agent_steps` and `all_tool_results`, the
`step_number` counter, and a trace of the LLM calls issued so far
(`true` = tools bound). -/
structure LoopState where
  msgs : List LCMessage
  steps : List AgentStep
  results : List ToolResult
  stepNumber : Nat
  llmCalls : List Bool
deriving Repr

/-- What one execution of the loop returns, plus the LLM-call trace. -/
structure ChatOutput where
  content : String
  steps : List AgentStep
  results : List ToolResult
  llmCalls : List Bool
deriving Repr

/-- Reasoning string of a natural final answer
(`f"Agent completed after {iteration + 1} iteration(s)"`). -/
def completedReasoning (k : Nat) : String :=
  "Agent completed after " ++ toString k ++ " iteration(s)"

/-- Reasoning string of the forced final answer
(`f"Max iterations ({max_iterations}) reached, forcing final answer"`). -/
def forcedReasoning (max_iterations : Nat) : String :=
  "Max iterations (" ++ toString max_iterations ++ ") reached, forcing final answer"

/-- The `ToolResult` the inner `for tool_call_data in response.tool_calls`
loop records for one call: resolve the tool, then either synthesize the
not-found result, run `execute` and take its returned dict (with
`success = result.get("success", True)` and `error = result.get("error")`),
or catch the raised exception as a failure result. -/
def toolCallResult (reg : MCPToolRegistry) (tc : ToolCallData) : ToolResult :=
  match reg.get_tool tc.name with
  | none =>
      { tool_call_id := tc.id, tool_name := tc.name, result := [],
        success := .pbool false,
        error := .pstr ("Tool \x27" ++ tc.name ++ "\x27 not found in registry") }
  | some tool =>
      match tool.execute tc.args with
      | .ok result =>
          { tool_call_id := tc.id, tool_name := tc.name, result := result,
            success := dictGetD result "success" (.pbool true),
            error := dictGetD result "error" .pnone }
      | .error e =>
          { tool_call_id := tc.id, tool_name := tc.name, result := [],
            success := .pbool false,
            error := .pstr ("Tool execution failed: " ++ e) }

/-- The rest of the inner loop body: append the result, the
`ToolMessage` (whose content is `str(tool_result.result)`) and the
`AgentStep`, and advance `step_number`. -/
def runToolCall (reg : MCPToolRegistry) (tc : ToolCallData) (st : LoopState) : LoopState :=
  let tool_call : ToolCall := { id := tc.id, name := tc.name, args := tc.args }
  let tool_result : ToolResult := toolCallResult reg tc
  { msgs := st.msgs ++ [.tool (pyValRepr (.pdict tool_result.result)) tc.id],
    steps := st.steps ++ [{ step_number := st.stepNumber, action := .tool_call,
                            tool_call := some tool_call, tool_result := some tool_result }],
    results := st.results ++ [tool_result],
    stepNumber := st.stepNumber + 1,
    llmCalls := st.llmCalls }

/-- The inner `for tool_call_data in response.tool_calls` loop. -/
def execToolCalls (reg : MCPToolRegistry) (tcs : List ToolCallData) (st : LoopState) : LoopState :=
  tcs.foldl (fun s tc => runToolCall reg tc s) st

/-- The `for iteration in range(max_iterations)` loop, by recursion on
the remaining iterations `n` (so the 0-based `iteration` index is
`max_iterations - n` when `n+1` iterations remain).  When the fuel runs
out, the forced final answer is issued with no tools bound. -/
def agentLoop (reg : MCPToolRegistry) (llm : LLMOracle) (boundTools : List String)
    (max_iterations : Nat) : Nat → LoopState → ChatOutput
  | 0, st =>
    let response := llm.noTools st.msgs
    { content := response.content,
      steps := st.steps ++ [{ step_number := st.stepNumber, action := .final_answer,
                              reasoning := some (forcedReasoning max_iterations) }],
      results := st.results,
      llmCalls := st.llmCalls ++ [false] }
  | n + 1, st =>
    let response := llm.withTools boundTools st.msgs
    let st1 : LoopState :=
      { st with msgs := st.msgs ++ [.ai response.content response.tool_calls],
                llmCalls := st.llmCalls ++ [true] }
    if response.tool_calls.isEmpty then
      { content := response.content,
        steps := st1.steps ++ [{ step_number := st1.stepNumber, action := .final_answer,
                                 reasoning := some (completedReasoning (max_iterations - n)) }],
        results := st1.results,
        llmCalls := st1.llmCalls }
    else
      agentLoop reg llm boundTools max_iterations n
        (execToolCalls reg response.tool_calls st1)

/-- The `except ValueError: raise / except Exception as e: raise
RuntimeError(f"Chat with tools failed: {e}")` wrapper around the body of
`chat_with_tools` (Python's `str(KeyError)` repr-quoting is elided). -/
def wrapChatError : PyError → PyError
  | .valueError m => .valueError m
  | .keyError m => .runtimeError ("Chat with tools failed: " ++ m)
  | .runtimeError m => .runtimeError ("Chat with tools failed: " ++ m)

/-- `LangChainLLM.chat_with_tools`.  `selfTemperature` / `selfMaxTokens`
are the instance defaults (validated in `__init__`); `temperature` /
`max_tokens` the per-call overrides.  The result pairs the returned value
(or the raised exception) with the trace of LLM calls issued, so that
"zero LLM calls" is observable on the error paths. -/
def chat_with_tools (reg : MCPToolRegistry) (llm : LLMOracle)
    (selfTemperature : ℚ) (selfMaxTokens : Int)
    (messages : List ChatMessage) (tool_names : Option (List String) := none)
    (temperature : Option ℚ := none) (max_tokens : Option Int := none)
    (max_iterations : Nat := 5) : Except PyError ChatOutput × List Bool :=
  if messages.isEmpty then
    (.error (.valueError "Messages list cannot be empty"), [])
  else if max_iterations < 1 then
    (.error (.valueError ("max_iterations must be at least 1, got " ++
      toString max_iterations)), [])
  else
    if ¬ (0 ≤ temperature.getD selfTemperature ∧ temperature.getD selfTemperature ≤ 1) then
      (.error (.valueError "temperature must be between 0.0 and 1.0"), [])
    else if ¬ (0 < max_tokens.getD selfMaxTokens ∧ max_tokens.getD selfMaxTokens ≤ 4000) then
      (.error (.valueError "max_tokens must be between 1 and 4000"), [])
    else
      match reg.get_langchain_tools tool_names with
      | .error e => (.error (wrapChatError e), [])
      | .ok langchain_tools =>
        if langchain_tools.isEmpty then
          (.error (.valueError ("No tools available. Requested: " ++
            pyStrOptStrList tool_names ++ ", Available: " ++
            pyStrStrList reg.list_tools)), [])
        else
          let out := agentLoop reg llm langchain_tools max_iterations max_iterations
            { msgs := convert_messages messages, steps := [], results := [],
              stepNumber := 1, llmCalls := [] }
          (.ok out, out.llmCalls)

/-! ### Context assembly (`src/agentlab/core/context_builder.py`) -/

/-- The `token_breakdown` dict built by `_estimate_tokens`: it always
holds exactly these seven keys, in this insertion order. -/
structure TokenBreakdown where
  short_term : Nat
  episodic : Nat
  rag : Nat
  tools : Nat
  semantic : Nat
  profile : Nat
  procedural : Nat
deriving DecidableEq, Repr

/-- `breakdown.values()`, in the dict's insertion order. -/
def TokenBreakdown.values (b : TokenBreakdown) : List Nat :=
  [b.short_term, b.episodic, b.rag, b.tools, b.semantic, b.profile, b.procedural]

/-- The `CombinedContext` dataclass. -/
structure CombinedContext where
  short_term_history : String := ""
  semantic_facts : Option (List String) := none
  user_profile : Option PyDict := none
  episodic_summary : String := ""
  procedural_patterns : Option (List String) := none
  rag_documents : Option (List PyDict) := none
  rag_context : String := ""
  tool_results : Option (List ToolResult) := none
  total_tokens_estimated : Nat := 0
  token_breakdown : Option TokenBreakdown := none
  truncated : Bool := false
  truncation_strategy : Option String := none
  warnings : Option (List String) := none
deriving Repr

/-- `ContextBuilder`: the token budget and the tiktoken encoder, the
latter abstracted as the length of the encoding of a text. -/
structure ContextBuilder where
  max_tokens : Nat := 4000
  enc : String → Nat

/-- `ContextBuilder.count_tokens`: `0` for falsy text, otherwise
`len(self.encoding.encode(text))`. -/
def ContextBuilder.count_tokens (cb : ContextBuilder) (text : String) : Nat :=
  if text.isEmpty then 0 else cb.enc text

/-- The body of `_format_tool_results` for the `i`-th (1-based) result.
`result.result` is always a dict in this model, so the `isinstance`
dict branch applies. -/
def formatOneToolResult (i : Nat) (r : ToolResult) : String :=
  let status := if pyTruthy r.success then "✅ Success" else "❌ Failed"
  let timestamp := r.timestamp.getD "N/A"
  let header := "### Tool " ++ toString i ++ ": `" ++ r.tool_name ++ "` (" ++ status ++ ")"
    ++ "\n**Time**: " ++ timestamp
    ++ "\n**Call ID**: " ++ r.tool_call_id
  if pyTruthy r.error then
    header ++ "\n**Error**: " ++ pyValStr r.error
  else
    let result_text := String.join
      (r.result.map (fun kv => "\n- **" ++ kv.1 ++ "**: " ++ pyValStr kv.2))
    header ++ "\n**Result**:" ++ result_text

/-- `ContextBuilder._format_tool_results`. -/
def format_tool_results (tool_results : List ToolResult) : String :=
  if tool_results.isEmpty then ""
  else
    String.intercalate "\n\n"
      ((tool_results.enumFrom 1).map (fun p => formatOneToolResult p.1 p.2))

/-- The body of `_format_rag_sources` for the `i`-th (1-based) source.
`source.get`/`metadata.get` on a non-dict `metadata` would raise in
Python; the model returns the default there (no verified claim reaches
that case). -/
def formatOneRagSource (i : Nat) (source : PyDict) : String :=
  let content := dictGetD source "page_content" (.pstr "")
  let metadata := dictGetD source "metadata" (.pdict [])
  let metaItems := match metadata with
    | .pdict xs => xs
    | _ => []
  let doc_id := dictGetD metaItems "doc_id" (.pstr ("doc_" ++ toString i))
  let namespc := dictGetD metaItems "namespace" (.pstr "")
  let header0 := "### Document " ++ toString i
  let header1 := if pyTruthy namespc then
      header0 ++ " (namespace: " ++ pyValStr namespc ++ ")"
    else header0
  let header := header1 ++ "\n**ID**: " ++ pyValStr doc_id ++ "\n"
  header ++ "\n" ++ pyValStr content

/-- `ContextBuilder._format_rag_sources`. -/
def format_rag_sources (sources : List PyDict) : String :=
  String.intercalate "\n\n"
    ((sources.enumFrom 1).map (fun p => formatOneRagSource p.1 p.2))

/-- The profile text `" ".join(f"{k}: {v}" for k, v in profile.items())`
used by `_estimate_tokens`. -/
def profileText (profile : PyDict) : String :=
  String.intercalate " " (profile.map (fun kv => kv.1 ++ ": " ++ pyValStr kv.2))

/-- `ContextBuilder._estimate_tokens`: the seven-entry breakdown dict and
its exact sum.  Parameters follow the Python signature order. -/
def ContextBuilder.estimate_tokens (cb : ContextBuilder)
    (short_term : String) (semantic : Option (List String)) (profile : Option PyDict)
    (episodic : String) (procedural : Option (List String))
    (rag_text : String) (tool_results_text : String := "") : Nat × TokenBreakdown :=
  let breakdown : TokenBreakdown :=
    { short_term := cb.count_tokens short_term,
      episodic := cb.count_tokens episodic,
      rag := cb.count_tokens rag_text,
      tools := cb.count_tokens tool_results_text,
      semantic := match semantic with
        | some facts => if facts.isEmpty then 0
            else (facts.map (fun fact => cb.count_tokens fact)).sum
        | none => 0,
      profile := match profile with
        | some p => if p.isEmpty then 0 else cb.count_tokens (profileText p)
        | none => 0,
      procedural := match procedural with
        | some ps => if ps.isEmpty then 0
            else (ps.map (fun pattern => cb.count_tokens pattern)).sum
        | none => 0 }
  (breakdown.values.sum, breakdown)

/-- The two warnings `build_context` attaches on overflow. -/
def overflowWarnings (max_tokens estimated_tokens : Nat) : List String :=
  ["Context exceeds " ++ toString max_tokens ++ " tokens (estimated " ++
    toString estimated_tokens ++ "). Applying truncation.",
   "Smart truncation not yet implemented. Returning full context."]

/-- `ContextBuilder.build_context`. -/
def ContextBuilder.build_context (cb : ContextBuilder)
    (memory_context : Option MemoryContext := none)
    (rag_result : Option RAGResult := none)
    (tool_results : Option (List ToolResult) := none)
    (prioritize : String := "balanced") : CombinedContext :=
  -- Extract memory components (only non-empty values)
  let short_term := match memory_context with
    | some mc => mc.short_term_context
    | none => ""
  let semantic := match memory_context with
    | some mc => if mc.semantic_facts.isEmpty then none else some mc.semantic_facts
    | none => none
  let profile := match memory_context with
    | some mc => if mc.user_profile.isEmpty then none else some mc.user_profile
    | none => none
  let episodic := match memory_context with
    | some mc => mc.episodic_summary.getD ""
    | none => ""
  let procedural := match memory_context with
    | some mc =>
      match mc.procedural_patterns with
      | some ps => if ps.isEmpty then none else some ps
      | none => none
    | none => none
  -- Extract RAG components
  let rag_docs := match rag_result with
    | some rr => if rr.success then (if rr.sources.isEmpty then none else some rr.sources)
        else none
    | none => none
  let rag_text := match rag_docs with
    | some docs => format_rag_sources docs
    | none => ""
  -- Tool results text
  let tool_results_text := match tool_results with
    | some trs => if trs.isEmpty then "" else format_tool_results trs
    | none => ""
  let est := cb.estimate_tokens short_term semantic profile episodic procedural
    rag_text tool_results_text
  let estimated_tokens := est.1
  let token_breakdown := est.2
  let overflow : Bool := decide (cb.max_tokens < estimated_tokens)
  let warnings : List String :=
    if overflow then overflowWarnings cb.max_tokens estimated_tokens else []
  { short_term_history := short_term,
    semantic_facts := semantic,
    user_profile := profile,
    episodic_summary := episodic,
    procedural_patterns := procedural,
    rag_documents := rag_docs,
    rag_context := rag_text,
    tool_results := tool_results,
    total_tokens_estimated := estimated_tokens,
    token_breakdown := some token_breakdown,
    truncated := overflow,
    truncation_strategy := if overflow then some prioritize else none,
    warnings := if warnings.isEmpty then none else some warnings }

/-- The ordered section list built by `format_for_prompt`; each present
source contributes one section, absent sources contribute nothing. -/
def promptSections (context : CombinedContext) : List String :=
  (if !context.short_term_history.isEmpty then
      ["## Recent Conversation\n" ++ context.short_term_history]
    else []) ++
  (if !context.rag_context.isEmpty then
      ["## Relevant Knowledge Base Documents\n" ++ context.rag_context]
    else []) ++
  (match context.tool_results with
    | some trs => if trs.isEmpty then []
        else ["## Tool Execution Results\n" ++ format_tool_results trs]
    | none => []) ++
  (match context.semantic_facts with
    | some facts => if facts.isEmpty then []
        else ["## Known Facts\n" ++
          String.intercalate "\n" (facts.map (fun fact => "- " ++ fact))]
    | none => []) ++
  (match context.user_profile with
    | some p => if p.isEmpty then []
        else ["## User Profile\n" ++
          String.intercalate "\n" (p.map (fun kv => "- " ++ kv.1 ++ ": " ++ pyValStr kv.2))]
    | none => []) ++
  (if !context.episodic_summary.isEmpty then
      ["## Conversation Summary\n" ++ context.episodic_summary]
    else []) ++
  (match context.procedural_patterns with
    | some ps => if ps.isEmpty then []
        else ["## Interaction Patterns\n" ++
          String.intercalate "\n" (ps.map (fun pattern => "- " ++ pattern))]
    | none => []) ++
  (match context.warnings with
    | some ws => if ws.isEmpty then []
        else ["## Context Warnings\n" ++
          String.intercalate "\n" (ws.map (fun w => "⚠️ " ++ w))]
    | none => [])

/-- `ContextBuilder.format_for_prompt`. -/
def format_for_prompt (context : CombinedContext) : String :=
  String.intercalate "\n\n" (promptSections context)

/-! ### Loop invariant lemmas -/

theorem toolCallResult_tool_call_id (reg : MCPToolRegistry) (tc : ToolCallData) :
    (toolCallResult reg tc).tool_call_id = tc.id := by
  unfold toolCallResult
  split
  · rfl
  · split <;> rfl

theorem toolCallResult_tool_name (reg : MCPToolRegistry) (tc : ToolCallData) :
    (toolCallResult reg tc).tool_name = tc.name := by
  unfold toolCallResult
  split
  · rfl
  · split <;> rfl

/-- One step of the inner loop, written as an explicit record update. -/
theorem runToolCall_eq (reg : MCPToolRegistry) (tc : ToolCallData) (st : LoopState) :
    runToolCall reg tc st =
      { msgs := st.msgs ++ [.tool (pyValRepr (.pdict (toolCallResult reg tc).result)) tc.id],
        steps := st.steps ++ [{ step_number := st.stepNumber, action := .tool_call,
                                tool_call := some ⟨tc.id, tc.name, tc.args⟩,
                                tool_result := some (toolCallResult reg tc) }],
        results := st.results ++ [toolCallResult reg tc],
        stepNumber := st.stepNumber + 1,
        llmCalls := st.llmCalls } := rfl

/-- Full characterization of the inner loop over one response's tool
calls: it appends one `tool_call` step and one result per call, in
request order, with consecutive step numbers, and touches no other
state. -/
theorem execToolCalls_spec (reg : MCPToolRegistry) :
    ∀ (tcs : List ToolCallData) (st : LoopState),
    ∃ newMsgs newSteps,
      execToolCalls reg tcs st =
        { msgs := st.msgs ++ newMsgs,
          steps := st.steps ++ newSteps,
          results := st.results ++ newSteps.filterMap (fun s => s.tool_result),
          stepNumber := st.stepNumber + newSteps.length,
          llmCalls := st.llmCalls } ∧
      newSteps.map (fun s => s.step_number) = List.range' st.stepNumber newSteps.length ∧
      ∀ s ∈ newSteps, s.action = .tool_call ∧
        ∃ c r, s.tool_call = some c ∧ s.tool_result = some r ∧
          r.tool_call_id = c.id ∧ r.tool_name = c.name
  | [], st => by
    refine ⟨[], [], ?_, by simp, by simp⟩
    simp [execToolCalls]
  | tc :: tcs, st => by
    obtain ⟨nm, ns, heq, hmap, hall⟩ := execToolCalls_spec reg tcs (runToolCall reg tc st)
    have hstep : execToolCalls reg (tc :: tcs) st =
        execToolCalls reg tcs (runToolCall reg tc st) := rfl
    refine ⟨.tool (pyValRepr (.pdict (toolCallResult reg tc).result)) tc.id :: nm,
      { step_number := st.stepNumber, action := .tool_call,
        tool_call := some ⟨tc.id, tc.name, tc.args⟩,
        tool_result := some (toolCallResult reg tc) } :: ns, ?_, ?_, ?_⟩
    · rw [hstep, heq, runToolCall_eq]
      simp [List.filterMap_cons]
      omega
    · rw [List.map_cons, hmap, runToolCall_eq]
      simp [List.range'_succ]
    · intro s hs
      rcases List.mem_cons.mp hs with h | h
      · subst h
        exact ⟨rfl, ⟨tc.id, tc.name, tc.args⟩, toolCallResult reg tc, rfl, rfl,
          toolCallResult_tool_call_id reg tc, toolCallResult_tool_name reg tc⟩
      · exact hall s h

/-- Trace shape of any run of the outer loop: starting from `st`, it
appends some `tool_call` steps (with consecutive step numbers continuing
`st.stepNumber`, each correctly paired with its result) followed by
exactly one `final_answer` step, and the appended results are exactly
the results of the appended steps. -/
theorem agentLoop_trace_spec (reg : MCPToolRegistry) (llm : LLMOracle) (bt : List String)
    (mi : Nat) : ∀ (n : Nat) (st : LoopState),
    ∃ newSteps fin,
      (agentLoop reg llm bt mi n st).steps = st.steps ++ newSteps ++ [fin] ∧
      (agentLoop reg llm bt mi n st).results =
        st.results ++ newSteps.filterMap (fun s => s.tool_result) ∧
      fin.action = .final_answer ∧ fin.tool_call = none ∧ fin.tool_result = none ∧
      fin.step_number = st.stepNumber + newSteps.length ∧
      newSteps.map (fun s => s.step_number) = List.range' st.stepNumber newSteps.length ∧
      ∀ s ∈ newSteps, s.action = .tool_call ∧
        ∃ c r, s.tool_call = some c ∧ s.tool_result = some r ∧
          r.tool_call_id = c.id ∧ r.tool_name = c.name
  | 0, st => by
    refine ⟨[], (⟨st.stepNumber, .final_answer, none, none,
      some (forcedReasoning mi)⟩ : AgentStep), ?_, ?_, rfl, rfl, rfl, by simp, by simp, by simp⟩
    · simp [agentLoop]
    · simp [agentLoop]
  | n + 1, st => by
    by_cases hE : (llm.withTools bt st.msgs).tool_calls.isEmpty
    · refine ⟨[], (⟨st.stepNumber, .final_answer, none, none,
        some (completedReasoning (mi - n))⟩ : AgentStep),
        ?_, ?_, rfl, rfl, rfl, by simp, by simp, by simp⟩
      · simp [agentLoop, hE]
      · simp [agentLoop, hE]
    · obtain ⟨nm, ns1, heq1, hmap1, hall1⟩ :=
        execToolCalls_spec reg (llm.withTools bt st.msgs).tool_calls
          { st with
            msgs := st.msgs ++ [.ai (llm.withTools bt st.msgs).content
              (llm.withTools bt st.msgs).tool_calls],
            llmCalls := st.llmCalls ++ [true] }
      obtain ⟨ns2, fin, hsteps, hres, hact, htc, htr, hnum, hmap2, hall2⟩ :=
        agentLoop_trace_spec reg llm bt mi n
          (execToolCalls reg (llm.withTools bt st.msgs).tool_calls
            { st with
              msgs := st.msgs ++ [.ai (llm.withTools bt st.msgs).content
                (llm.withTools bt st.msgs).tool_calls],
              llmCalls := st.llmCalls ++ [true] })

      have hrun : agentLoop reg llm bt mi (n + 1) st =
          agentLoop reg llm bt mi n
            (execToolCalls reg (llm.withTools bt st.msgs).tool_calls
              { st with
                msgs := st.msgs ++ [.ai (llm.withTools bt st.msgs).content
                  (llm.withTools bt st.msgs).tool_calls],
                llmCalls := st.llmCalls ++ [true] }) := by
        simp [agentLoop, hE]
      rw [heq1] at hrun hsteps hres hnum hmap2
      dsimp only at hrun hsteps hres hnum hmap1 hmap2
      refine ⟨ns1 ++ ns2, fin, ?_, ?_, hact, htc, htr, ?_, ?_, ?_⟩
      · rw [hrun, hsteps]
        simp
      · rw [hrun, hres]
        simp
      · rw [hnum]
        simp
        omega
      · rw [List.map_append, hmap1, hmap2]
        simp [List.range'_append_1, Nat.add_comm]
      · intro s hs
        rcases List.mem_append.mp hs with h | h
        · exact hall1 s h
        · exact hall2 s h

/-- When every tools-bound LLM response carries at least one tool call,
a run with fuel `n` issues exactly `n` tools-bound LLM calls followed by
one unbound call, and its step trace ends in the forced `final_answer`
step, preceded only by `tool_call` steps. -/
theorem agentLoop_saturated_spec (reg : MCPToolRegistry) (llm : LLMOracle) (bt : List String)
    (mi : Nat) (hAll : ∀ msgs, (llm.withTools bt msgs).tool_calls ≠ []) :
    ∀ (n : Nat) (st : LoopState),
    ∃ pre k,
      (agentLoop reg llm bt mi n st).llmCalls =
        st.llmCalls ++ (List.replicate n true ++ [false]) ∧
      (agentLoop reg llm bt mi n st).steps =
        st.steps ++ pre ++ [⟨k, .final_answer, none, none, some (forcedReasoning mi)⟩] ∧
      ∀ s ∈ pre, s.action = .tool_call
  | 0, st => by
    refine ⟨[], st.stepNumber, ?_, ?_, by simp⟩
    · simp [agentLoop]
    · simp [agentLoop]
  | n + 1, st => by
    have hE : (llm.withTools bt st.msgs).tool_calls.isEmpty = false :=
      List.isEmpty_eq_false.mpr (hAll st.msgs)
    obtain ⟨nm, ns1, heq1, hmap1, hall1⟩ :=
      execToolCalls_spec reg (llm.withTools bt st.msgs).tool_calls
        { st with
          msgs := st.msgs ++ [.ai (llm.withTools bt st.msgs).content
            (llm.withTools bt st.msgs).tool_calls],
          llmCalls := st.llmCalls ++ [true] }
    obtain ⟨pre, k, hcalls, hsteps, hpre⟩ :=
      agentLoop_saturated_spec reg llm bt mi hAll n
        (execToolCalls reg (llm.withTools bt st.msgs).tool_calls
          { st with
            msgs := st.msgs ++ [.ai (llm.withTools bt st.msgs).content
              (llm.withTools bt st.msgs).tool_calls],
            llmCalls := st.llmCalls ++ [true] })
    have hrun : agentLoop reg llm bt mi (n + 1) st =
        agentLoop reg llm bt mi n
          (execToolCalls reg (llm.withTools bt st.msgs).tool_calls
            { st with
              msgs := st.msgs ++ [.ai (llm.withTools bt st.msgs).content
                (llm.withTools bt st.msgs).tool_calls],
              llmCalls := st.llmCalls ++ [true] }) := by
      simp [agentLoop, hE]
    rw [heq1] at hrun hcalls hsteps
    dsimp only at hrun hcalls hsteps
    refine ⟨ns1 ++ pre, k, ?_, ?_, ?_⟩
    · rw [hrun, hcalls]
      simp [List.replicate_succ]
    · rw [hrun, hsteps]
      simp
    · intro s hs
      rcases List.mem_append.mp hs with h | h
      · exact (hall1 s h).1
      · exact hpre s h

/-- Every run issues at least one further LLM call from any state: the
trace of LLM calls strictly grows. -/
theorem agentLoop_calls_another (reg : MCPToolRegistry) (llm : LLMOracle) (bt : List String)
    (mi : Nat) : ∀ (n : Nat) (st : LoopState),
    ∃ more, more ≠ [] ∧
      (agentLoop reg llm bt mi n st).llmCalls = st.llmCalls ++ more
  | 0, st => ⟨[false], by simp, by simp [agentLoop]⟩
  | n + 1, st => by
    by_cases hE : (llm.withTools bt st.msgs).tool_calls.isEmpty
    · exact ⟨[true], by simp, by simp [agentLoop, hE]⟩
    · obtain ⟨nm, ns1, heq1, _, _⟩ :=
        execToolCalls_spec reg (llm.withTools bt st.msgs).tool_calls
          { st with
            msgs := st.msgs ++ [.ai (llm.withTools bt st.msgs).content
              (llm.withTools bt st.msgs).tool_calls],
            llmCalls := st.llmCalls ++ [true] }
      obtain ⟨more, hne, hcalls⟩ :=
        agentLoop_calls_another reg llm bt mi n
          (execToolCalls reg (llm.withTools bt st.msgs).tool_calls
            { st with
              msgs := st.msgs ++ [.ai (llm.withTools bt st.msgs).content
                (llm.withTools bt st.msgs).tool_calls],
              llmCalls := st.llmCalls ++ [true] })
      have hrun : agentLoop reg llm bt mi (n + 1) st =
          agentLoop reg llm bt mi n
            (execToolCalls reg (llm.withTools bt st.msgs).tool_calls
              { st with
                msgs := st.msgs ++ [.ai (llm.withTools bt st.msgs).content
                  (llm.withTools bt st.msgs).tool_calls],
                llmCalls := st.llmCalls ++ [true] }) := by
        simp [agentLoop, hE]
      rw [heq1] at hrun hcalls
      dsimp only at hrun hcalls
      refine ⟨true :: more, by simp, ?_⟩
      rw [hrun, hcalls]
      simp

/-- Results only accumulate across the inner loop, so the result
recorded for any member of the batch is present afterwards. -/
theorem execToolCalls_mem_result (reg : MCPToolRegistry) :
    ∀ (tcs : List ToolCallData) (st : LoopState) (tc : ToolCallData), tc ∈ tcs →
      toolCallResult reg tc ∈ (execToolCalls reg tcs st).results
  | t :: ts, st, tc, hmem => by
    rcases List.mem_cons.mp hmem with h | h
    · subst h
      obtain ⟨nm, ns, heq, _, _⟩ := execToolCalls_spec reg ts (runToolCall reg tc st)
      have hstep : execToolCalls reg (tc :: ts) st =
          execToolCalls reg ts (runToolCall reg tc st) := rfl
      rw [hstep, heq, runToolCall_eq]
      simp
    · exact execToolCalls_mem_result reg ts (runToolCall reg t st) tc h

/-- Any `.ok` outcome of `chat_with_tools` is a run of the loop from the
converted initial messages with a non-empty bound tool list. -/
theorem chat_with_tools_ok_elim (reg : MCPToolRegistry) (llm : LLMOracle)
    (sT : ℚ) (sM : Int) (messages : List ChatMessage) (tool_names : Option (List String))
    (temperature : Option ℚ) (max_tokens : Option Int) (mi : Nat) (out : ChatOutput)
    (h : (chat_with_tools reg llm sT sM messages tool_names temperature max_tokens mi).1 =
      .ok out) :
    ∃ bt, reg.get_langchain_tools tool_names = .ok bt ∧ bt ≠ [] ∧
      out = agentLoop reg llm bt mi mi
        { msgs := convert_messages messages, steps := [], results := [],
          stepNumber := 1, llmCalls := [] } := by
  unfold chat_with_tools at h
  split at h
  · simp at h
  · split at h
    · simp at h
    · split at h
      · simp at h
      · split at h
        · simp at h
        · split at h
          · simp at h
          · rename_i langchain_tools heqtools
            split at h
            · simp at h
            · rename_i hne
              refine ⟨langchain_tools, heqtools, by simpa using hne, ?_⟩
              simpa using h.symm

/-! ### Claims about the context assembly engine -/

/-- C4: for every `CombinedContext` produced by `build_context`, the sum
of the values of `token_breakdown` equals `total_tokens_estimated`,
including when every source is absent (the sum of seven zero entries is
zero). -/
theorem build_context_token_sum (cb : ContextBuilder) (mc : Option MemoryContext)
    (rr : Option RAGResult) (trs : Option (List ToolResult)) (pri : String) :
    ∃ b, (cb.build_context mc rr trs pri).token_breakdown = some b ∧
      b.values.sum = (cb.build_context mc rr trs pri).total_tokens_estimated :=
  ⟨_, rfl, rfl⟩

/-- C5: when the computed total token count exceeds `max_tokens`,
`build_context` sets `truncated`, records the requested priority as
`truncation_strategy`, attaches at least one warning, and still returns
every content field exactly as a builder with any other budget `M`
(in particular one large enough to avoid the overflow) would: the full,
untrimmed context. -/
theorem build_context_overflow_full_context (cb : ContextBuilder)
    (mc : Option MemoryContext) (rr : Option RAGResult) (trs : Option (List ToolResult))
    (pri : String)
    (h : cb.max_tokens < (cb.build_context mc rr trs pri).total_tokens_estimated) :
    (cb.build_context mc rr trs pri).truncated = true ∧
    (cb.build_context mc rr trs pri).truncation_strategy = some pri ∧
    (∃ w, (cb.build_context mc rr trs pri).warnings = some w ∧ w ≠ []) ∧
    ∀ M : Nat,
      (cb.build_context mc rr trs pri).short_term_history =
        (ContextBuilder.build_context ⟨M, cb.enc⟩ mc rr trs pri).short_term_history ∧
      (cb.build_context mc rr trs pri).semantic_facts =
        (ContextBuilder.build_context ⟨M, cb.enc⟩ mc rr trs pri).semantic_facts ∧
      (cb.build_context mc rr trs pri).user_profile =
        (ContextBuilder.build_context ⟨M, cb.enc⟩ mc rr trs pri).user_profile ∧
      (cb.build_context mc rr trs pri).episodic_summary =
        (ContextBuilder.build_context ⟨M, cb.enc⟩ mc rr trs pri).episodic_summary ∧
      (cb.build_context mc rr trs pri).procedural_patterns =
        (ContextBuilder.build_context ⟨M, cb.enc⟩ mc rr trs pri).procedural_patterns ∧
      (cb.build_context mc rr trs pri).rag_documents =
        (ContextBuilder.build_context ⟨M, cb.enc⟩ mc rr trs pri).rag_documents ∧
      (cb.build_context mc rr trs pri).rag_context =
        (ContextBuilder.build_context ⟨M, cb.enc⟩ mc rr trs pri).rag_context ∧
      (cb.build_context mc rr trs pri).tool_results =
        (ContextBuilder.build_context ⟨M, cb.enc⟩ mc rr trs pri).tool_results := by
  have hd : decide (cb.max_tokens <
      (cb.build_context mc rr trs pri).total_tokens_estimated) = true := decide_eq_true h
  refine ⟨?_, ?_, ?_, ?_⟩
  · exact hd
  · show (if (decide (cb.max_tokens <
        (cb.build_context mc rr trs pri).total_tokens_estimated) : Bool)
        then some pri else none) = some pri
    rw [hd]
    simp
  · refine ⟨overflowWarnings cb.max_tokens
      (cb.build_context mc rr trs pri).total_tokens_estimated, ?_, by simp [overflowWarnings]⟩
    show (if (if (decide (cb.max_tokens <
          (cb.build_context mc rr trs pri).total_tokens_estimated) : Bool)
          then overflowWarnings cb.max_tokens
            (cb.build_context mc rr trs pri).total_tokens_estimated
          else []).isEmpty
        then none
        else some (if (decide (cb.max_tokens <
          (cb.build_context mc rr trs pri).total_tokens_estimated) : Bool)
          then overflowWarnings cb.max_tokens
            (cb.build_context mc rr trs pri).total_tokens_estimated
          else [])) =
      some (overflowWarnings cb.max_tokens
        (cb.build_context mc rr trs pri).total_tokens_estimated)
    rw [hd]
    simp [overflowWarnings]
  · intro M
    exact ⟨rfl, rfl, rfl, rfl, rfl, rfl, rfl, rfl⟩

/-- C6: building with `memory_context` absent and a successful
`rag_result` of five sources yields exactly those five `rag_documents`,
empty/absent memory fields, zero for every memory-related
`token_breakdown` entry, and a rendered prompt identical to that of a
context holding only the RAG text and warnings — memory leaks nothing. -/
theorem build_context_memory_absent_isolated (cb : ContextBuilder) (rr : RAGResult)
    (pri : String) (hs : rr.success = true) (h5 : rr.sources.length = 5) :
    (cb.build_context none (some rr) none pri).rag_documents = some rr.sources ∧
    (cb.build_context none (some rr) none pri).short_term_history = "" ∧
    (cb.build_context none (some rr) none pri).semantic_facts = none ∧
    (cb.build_context none (some rr) none pri).user_profile = none ∧
    (cb.build_context none (some rr) none pri).episodic_summary = "" ∧
    (cb.build_context none (some rr) none pri).procedural_patterns = none ∧
    (∃ b, (cb.build_context none (some rr) none pri).token_breakdown = some b ∧
      b.short_term = 0 ∧ b.episodic = 0 ∧ b.semantic = 0 ∧ b.profile = 0 ∧
      b.procedural = 0) ∧
    format_for_prompt (cb.build_context none (some rr) none pri) =
      format_for_prompt
        { rag_documents := (cb.build_context none (some rr) none pri).rag_documents,
          rag_context := (cb.build_context none (some rr) none pri).rag_context,
          warnings := (cb.build_context none (some rr) none pri).warnings } := by
  have hne : rr.sources.isEmpty = false := by
    refine List.isEmpty_eq_false.mpr ?_
    intro hnil
    rw [hnil] at h5
    simp at h5
  refine ⟨?_, rfl, rfl, rfl, rfl, rfl, ⟨_, rfl, rfl, rfl, rfl, rfl, rfl⟩, rfl⟩
  unfold ContextBuilder.build_context
  simp [hs, hne]

/-! ### Claims about the agent loop -/

/-- C1: whenever every tools-bound LLM response carries at least one
tool call, a successful `chat_with_tools` run issues exactly
`max_iterations` tools-bound LLM calls followed by exactly one unbound
call (`max_iterations + 1` in total), and its step trace consists of
`tool_call` steps closed by exactly one forced `final_answer` step
carrying the max-iterations reasoning. -/
theorem chat_with_tools_saturated_loop (reg : MCPToolRegistry) (llm : LLMOracle)
    (sT : ℚ) (sM : Int) (messages : List ChatMessage) (tool_names : Option (List String))
    (temperature : Option ℚ) (max_tokens : Option Int) (mi : Nat) (out : ChatOutput)
    (hAll : ∀ bt msgs, (llm.withTools bt msgs).tool_calls ≠ [])
    (h : (chat_with_tools reg llm sT sM messages tool_names temperature max_tokens mi).1 =
      .ok out) :
    out.llmCalls = List.replicate mi true ++ [false] ∧
    out.llmCalls.length = mi + 1 ∧
    ∃ pre k, out.steps = pre ++ [⟨k, .final_answer, none, none, some (forcedReasoning mi)⟩] ∧
      ∀ s ∈ pre, s.action = .tool_call := by
  obtain ⟨bt, _, _, hout⟩ :=
    chat_with_tools_ok_elim reg llm sT sM messages tool_names temperature max_tokens mi out h
  obtain ⟨pre, k, hcalls, hsteps, hpre⟩ :=
    agentLoop_saturated_spec reg llm bt mi (hAll bt) mi
      { msgs := convert_messages messages, steps := [], results := [],
        stepNumber := 1, llmCalls := [] }
  subst hout
  dsimp only at hcalls hsteps
  refine ⟨by simpa using hcalls, ?_, pre, k, by simpa using hsteps, hpre⟩
  rw [hcalls]
  simp

/-- C8: within one successful `chat_with_tools` execution, the
`step_number` fields of the appended steps (final step included) form
the sequence `1, 2, 3, ...`, strictly increasing by one. -/
theorem chat_with_tools_step_numbers (reg : MCPToolRegistry) (llm : LLMOracle)
    (sT : ℚ) (sM : Int) (messages : List ChatMessage) (tool_names : Option (List String))
    (temperature : Option ℚ) (max_tokens : Option Int) (mi : Nat) (out : ChatOutput)
    (h : (chat_with_tools reg llm sT sM messages tool_names temperature max_tokens mi).1 =
      .ok out) :
    out.steps.map (fun s => s.step_number) = List.range' 1 out.steps.length := by
  obtain ⟨bt, _, _, hout⟩ :=
    chat_with_tools_ok_elim reg llm sT sM messages tool_names temperature max_tokens mi out h
  obtain ⟨ns, fin, hsteps, _, _, _, _, hnum, hmap, _⟩ :=
    agentLoop_trace_spec reg llm bt mi mi
      { msgs := convert_messages messages, steps := [], results := [],
        stepNumber := 1, llmCalls := [] }
  subst hout
  dsimp only at hsteps hnum hmap
  rw [hsteps]
  simp [hmap, hnum, List.range'_concat]

/-- C9: every `tool_call` step of a successful `chat_with_tools` run
pairs its recorded `ToolResult` with its `ToolCall` (`tool_call_id` and
`tool_name` match), and the returned results list is exactly the results
of the steps, one per tool call, in request order. -/
theorem chat_with_tools_tool_result_pairing (reg : MCPToolRegistry) (llm : LLMOracle)
    (sT : ℚ) (sM : Int) (messages : List ChatMessage) (tool_names : Option (List String))
    (temperature : Option ℚ) (max_tokens : Option Int) (mi : Nat) (out : ChatOutput)
    (h : (chat_with_tools reg llm sT sM messages tool_names temperature max_tokens mi).1 =
      .ok out) :
    (∀ s ∈ out.steps, s.action = .tool_call →
      ∃ c r, s.tool_call = some c ∧ s.tool_result = some r ∧
        r.tool_call_id = c.id ∧ r.tool_name = c.name) ∧
    out.results = out.steps.filterMap (fun s => s.tool_result) := by
  obtain ⟨bt, _, _, hout⟩ :=
    chat_with_tools_ok_elim reg llm sT sM messages tool_names temperature max_tokens mi out h
  obtain ⟨ns, fin, hsteps, hres, hact, _, htr, _, _, hall⟩ :=
    agentLoop_trace_spec reg llm bt mi mi
      { msgs := convert_messages messages, steps := [], results := [],
        stepNumber := 1, llmCalls := [] }
  subst hout
  dsimp only at hsteps hres
  constructor
  · intro s hs hsact
    rw [hsteps] at hs
    simp at hs
    rcases hs with hs | hs
    · exact (hall s hs).2
    · subst hs
      rw [hact] at hsact
      cases hsact
  · rw [hres, hsteps]
    simp [htr]

/-- C7: a raised tool exception is contained: the inner loop records it
as a `ToolResult` with `success=False` and the exception text, appends
the corresponding tool message and step, the outer loop proceeds to its
next LLM turn (the call trace strictly grows), and the recorded failure
is present among the results (the run still returns a `ChatOutput`
rather than propagating the exception). -/
theorem tool_error_contained (reg : MCPToolRegistry) (llm : LLMOracle) (bt : List String)
    (mi n : Nat) (st : LoopState) (tcs : List ToolCallData) (tc : ToolCallData)
    (tool : MCPTool) (e : String) (c : String)
    (htool : reg.get_tool tc.name = some tool)
    (herr : tool.execute tc.args = .error e)
    (hresp : llm.withTools bt st.msgs = ⟨c, tcs⟩)
    (hmem : tc ∈ tcs) :
    (∀ st' : LoopState, runToolCall reg tc st' =
      { msgs := st'.msgs ++ [.tool "\x7b\x7d" tc.id],
        steps := st'.steps ++ [⟨st'.stepNumber, .tool_call, some ⟨tc.id, tc.name, tc.args⟩,
          some ⟨tc.id, tc.name, [], .pbool false,
            .pstr ("Tool execution failed: " ++ e), none⟩, none⟩],
        results := st'.results ++ [⟨tc.id, tc.name, [], .pbool false,
          .pstr ("Tool execution failed: " ++ e), none⟩],
        stepNumber := st'.stepNumber + 1,
        llmCalls := st'.llmCalls }) ∧
    agentLoop reg llm bt mi (n + 1) st =
      agentLoop reg llm bt mi n
        (execToolCalls reg tcs
          { st with msgs := st.msgs ++ [.ai c tcs], llmCalls := st.llmCalls ++ [true] }) ∧
    (⟨tc.id, tc.name, [], .pbool false,
        .pstr ("Tool execution failed: " ++ e), none⟩ : ToolResult) ∈
      (execToolCalls reg tcs
        { st with msgs := st.msgs ++ [.ai c tcs], llmCalls := st.llmCalls ++ [true] }).results ∧
    ∃ more, more ≠ [] ∧
      (agentLoop reg llm bt mi n
        (execToolCalls reg tcs
          { st with msgs := st.msgs ++ [.ai c tcs],
                    llmCalls := st.llmCalls ++ [true] })).llmCalls =
      (execToolCalls reg tcs
        { st with msgs := st.msgs ++ [.ai c tcs],
                  llmCalls := st.llmCalls ++ [true] }).llmCalls ++ more := by
  have hfail : toolCallResult reg tc =
      ⟨tc.id, tc.name, [], .pbool false,
        .pstr ("Tool execution failed: " ++ e), none⟩ := by
    simp [toolCallResult, htool, herr]
  have hE : tcs.isEmpty = false :=
    List.isEmpty_eq_false.mpr (List.ne_nil_of_mem hmem)
  refine ⟨?_, ?_, ?_, ?_⟩
  · intro st'
    rw [runToolCall_eq, hfail]
    rfl
  · simp [agentLoop, hresp, hE]
  · rw [← hfail]
    exact execToolCalls_mem_result reg tcs _ tc hmem
  · exact agentLoop_calls_another reg llm bt mi n _

/-- C2 (amended): when the resolved tool's `execute` returns normally,
the recorded `ToolResult` carries the returned dict as `result`, takes
`success` from the dict's `"success"` entry — defaulting to `True` only
when that key is absent — and `error` from its `"error"` entry.
(`success = true` is therefore not guaranteed by a normal return alone.) -/
theorem runToolCall_normal_return (reg : MCPToolRegistry) (tc : ToolCallData)
    (tool : MCPTool) (res : PyDict) (st : LoopState)
    (htool : reg.get_tool tc.name = some tool)
    (hok : tool.execute tc.args = .ok res) :
    runToolCall reg tc st =
      { msgs := st.msgs ++ [.tool (pyValRepr (.pdict res)) tc.id],
        steps := st.steps ++ [⟨st.stepNumber, .tool_call, some ⟨tc.id, tc.name, tc.args⟩,
          some ⟨tc.id, tc.name, res, dictGetD res "success" (.pbool true),
                dictGetD res "error" .pnone, none⟩, none⟩],
        results := st.results ++ [⟨tc.id, tc.name, res,
          dictGetD res "success" (.pbool true), dictGetD res "error" .pnone, none⟩],
        stepNumber := st.stepNumber + 1,
        llmCalls := st.llmCalls } := by
  have hres : toolCallResult reg tc =
      ⟨tc.id, tc.name, res, dictGetD res "success" (.pbool true),
        dictGetD res "error" .pnone, none⟩ := by
    simp [toolCallResult, htool, hok]
  rw [runToolCall_eq, hres]

/-- Missing requested tool name: the registry walk raises a `KeyError`. -/
theorem getLangchainToolsNamed_missing (reg : MCPToolRegistry) :
    ∀ (names : List String), (∃ name ∈ names, reg.has_tool name = false) →
      ∃ m, getLangchainToolsNamed reg names = .error (.keyError m)
  | [], h => by
    obtain ⟨x, hx, _⟩ := h
    exact absurd hx (List.not_mem_nil x)
  | name :: rest, h => by
    by_cases hn : reg.has_tool name
    · obtain ⟨x, hx, hxf⟩ := h
      rcases List.mem_cons.mp hx with h1 | h1
      · subst h1
        rw [hn] at hxf
        cases hxf
      · obtain ⟨m, hm⟩ := getLangchainToolsNamed_missing reg rest ⟨x, h1, hxf⟩
        exact ⟨m, by simp [getLangchainToolsNamed, hn, hm, Except.map]⟩
    · exact ⟨"Tool \x27" ++ name ++ "\x27 not found in registry",
        by simp [getLangchainToolsNamed, hn]⟩

/-- C3 (amended): when `tool_names` contains a name absent from the
registry (and the other entry parameters are valid), `chat_with_tools`
raises a `RuntimeError` wrapping the registry's `KeyError` — not a
validation `ValueError` — and zero LLM calls are made. -/
theorem chat_with_tools_unknown_tool_runtime_error (reg : MCPToolRegistry)
    (llm : LLMOracle) (sT : ℚ) (sM : Int) (messages : List ChatMessage)
    (names : List String) (temperature : Option ℚ) (max_tokens : Option Int) (mi : Nat)
    (hmsg : messages ≠ [])
    (hmi : 1 ≤ mi)
    (htemp : 0 ≤ temperature.getD sT ∧ temperature.getD sT ≤ 1)
    (htok : 0 < max_tokens.getD sM ∧ max_tokens.getD sM ≤ 4000)
    (hmissing : ∃ name ∈ names, reg.has_tool name = false) :
    ∃ m, chat_with_tools reg llm sT sM messages (some names) temperature max_tokens mi =
      (.error (.runtimeError ("Chat with tools failed: " ++ m)), []) := by
  obtain ⟨m, hm⟩ := getLangchainToolsNamed_missing reg names hmissing
  refine ⟨m, ?_⟩
  unfold chat_with_tools
  rw [if_neg (by simp [List.isEmpty_eq_false.mpr hmsg]),
    if_neg (Nat.not_lt.mpr hmi),
    if_neg (not_not_intro htemp),
    if_neg (not_not_intro htok)]
  simp [MCPToolRegistry.get_langchain_tools, hm, wrapChatError]

/-- C10: when the resolved tool list is empty — the registry holds no
tools and `tool_names` is absent, or `tool_names` is an empty list —
`chat_with_tools` raises a `ValueError` before any LLM call is made
(zero recorded LLM calls), despite the spec's "absent subset binds all
registered tools". -/
theorem chat_with_tools_empty_tools_error (reg : MCPToolRegistry) (llm : LLMOracle)
    (sT : ℚ) (sM : Int) (messages : List ChatMessage) (tool_names : Option (List String))
    (temperature : Option ℚ) (max_tokens : Option Int) (mi : Nat)
    (hmsg : messages ≠ [])
    (hmi : 1 ≤ mi)
    (htemp : 0 ≤ temperature.getD sT ∧ temperature.getD sT ≤ 1)
    (htok : 0 < max_tokens.getD sM ∧ max_tokens.getD sM ≤ 4000)
    (hres : reg.get_langchain_tools tool_names = .ok []) :
    chat_with_tools reg llm sT sM messages tool_names temperature max_tokens mi =
      (.error (.valueError ("No tools available. Requested: " ++
        pyStrOptStrList tool_names ++ ", Available: " ++ pyStrStrList reg.list_tools)), []) := by
  unfold chat_with_tools
  rw [if_neg (by simp [List.isEmpty_eq_false.mpr hmsg]),
    if_neg (Nat.not_lt.mpr hmi),
    if_neg (not_not_intro htemp),
    if_neg (not_not_intro htok)]
  rw [hres]
  simp

/-! ### Concrete scenarios

Closed instances used to evaluate the theorems on concrete inputs. -/

/-- The dict `DateTimeTool.execute` returns for an unknown timezone
(src/agentlab/mcp/tools/datetime_tool.py, lines 104-111): a normal
return whose `success` entry is `False`. -/
def dateTimeInvalidTzReturn : PyDict :=
  [("success", .pbool false), ("datetime", .pstr ""), ("format", .pstr "iso"),
   ("timezone", .pstr "Bad/Zone"),
   ("error", .pstr "Invalid timezone \x27Bad/Zone\x27: \x27Bad/Zone\x27")]

/-- A concrete tool exhibiting the invalid-timezone path of
`DateTimeTool.execute`: the coroutine returns normally (no exception)
with `success=False` in its result dict. -/
def dateTimeInvalidTzTool : MCPTool :=
  { name := "get_current_datetime",
    execute := fun _ => .ok dateTimeInvalidTzReturn }

/-- A registry holding only the datetime tool, as after built-in
registration. -/
def demoReg : MCPToolRegistry := ⟨[("get_current_datetime", dateTimeInvalidTzTool)]⟩

/-- A registry holding no tools at all. -/
def emptyReg : MCPToolRegistry := ⟨[]⟩

/-- The tool call the demo LLM issues on its first turn. -/
def demoToolCall : ToolCallData :=
  ⟨"call_1", "get_current_datetime", [("timezone", .pstr "Bad/Zone")]⟩

/-- An LLM oracle requesting one datetime call on the first turn (one
message in history) and answering with no tool calls afterwards. -/
def demoLLM : LLMOracle :=
  { withTools := fun _ msgs =>
      if msgs.length ≤ 1 then ⟨"", [demoToolCall]⟩ else ⟨"done", []⟩,
    noTools := fun _ => ⟨"forced", []⟩ }

/-- An LLM oracle that requests a tool call on every tools-bound turn. -/
def loopLLM : LLMOracle :=
  { withTools := fun _ _ => ⟨"", [demoToolCall]⟩,
    noTools := fun _ => ⟨"forced out", []⟩ }

/-- The demo conversation: a single user message. -/
def demoMessages : List ChatMessage := [⟨.user, "What time is it in Bad/Zone?"⟩]

/-- The loop state `chat_with_tools` starts from for `demoMessages`. -/
def demoInit : LoopState :=
  { msgs := convert_messages demoMessages, steps := [], results := [],
    stepNumber := 1, llmCalls := [] }

/-- The output of the two-turn demo run. -/
def demoOut : ChatOutput :=
  agentLoop demoReg demoLLM ["get_current_datetime"] 5 5 demoInit

/-- The output of the saturated run (`loopLLM`, two iterations). -/
def loopOut : ChatOutput :=
  agentLoop demoReg loopLLM ["get_current_datetime"] 2 2 demoInit

/-- A tool whose `execute` raises. -/
def failTool : MCPTool := ⟨"fail_tool", fun _ => .error "boom"⟩

/-- A registry holding only the raising tool. -/
def failReg : MCPToolRegistry := ⟨[("fail_tool", failTool)]⟩

/-- The call the failing demo issues. -/
def failToolCall : ToolCallData := ⟨"call_9", "fail_tool", []⟩

/-- An LLM oracle that always requests the failing tool. -/
def failLLM : LLMOracle :=
  { withTools := fun _ _ => ⟨"xx", [failToolCall]⟩,
    noTools := fun _ => ⟨"done", []⟩ }

/-- A mid-run loop state for the failing demo. -/
def failState : LoopState := ⟨[.human "go"], [], [], 1, []⟩

/-- Discriminator for the spec's `ValidationError` case (`ValueError`
in the code's taxonomy). -/
def isValidationError : Except PyError ChatOutput → Bool
  | .error (.valueError _) => true
  | _ => false

/-- C2 counterexample: the datetime tool's `execute` returns normally
on the demo run, yet the recorded `ToolResult.success` is `False` (the
loop takes `success` from the returned dict, not from the absence of an
exception), refuting "normal return ⇒ success=true". -/
theorem tool_normal_return_success_false_cex :
    dateTimeInvalidTzTool.execute demoToolCall.args = .ok dateTimeInvalidTzReturn ∧
    ((chat_with_tools demoReg demoLLM 0 1000 demoMessages none none none 5).1.toOption.map
      (fun out => out.results.map (fun r => r.success))) = some [PyVal.pbool false] :=
  ⟨rfl, rfl⟩

/-- C3 counterexample: requesting the unknown tool name `"missing"`
with otherwise-valid parameters raises the `RuntimeError` wrapper (the
registry's `KeyError` is not re-raised as a validation error), with zero
LLM calls; this refutes "a ValidationError is raised". -/
theorem unknown_tool_not_validation_error_cex :
    chat_with_tools demoReg demoLLM 0 1000 demoMessages (some ["missing"]) none none 5 =
      (.error (.runtimeError
        "Chat with tools failed: Tool \x27missing\x27 not found in registry"), []) ∧
    isValidationError
      (chat_with_tools demoReg demoLLM 0 1000 demoMessages
        (some ["missing"]) none none 5).1 = false :=
  ⟨rfl, rfl⟩

/-! ### Witnesses -/

/-- C1 witness: the saturated-loop claim evaluated on the concrete
always-calls oracle with `max_iterations = 2`. -/
theorem chat_with_tools_saturated_loop_witness :
    (∀ bt msgs, (loopLLM.withTools bt msgs).tool_calls ≠ []) ∧
    ((chat_with_tools demoReg loopLLM 0 1000 demoMessages none none none 2).1 =
      .ok loopOut) ∧
    (loopOut.llmCalls = List.replicate 2 true ++ [false] ∧
     loopOut.llmCalls.length = 2 + 1 ∧
     ∃ pre k, loopOut.steps =
        pre ++ [⟨k, .final_answer, none, none, some (forcedReasoning 2)⟩] ∧
       ∀ s ∈ pre, s.action = .tool_call) :=
  ⟨fun _ _ => by simp [loopLLM], rfl,
    chat_with_tools_saturated_loop demoReg loopLLM 0 1000 demoMessages none none none 2
      loopOut (fun _ _ => by simp [loopLLM]) rfl⟩

/-- C8 witness: the step-number claim evaluated on the two-turn demo
run. -/
theorem chat_with_tools_step_numbers_witness :
    ((chat_with_tools demoReg demoLLM 0 1000 demoMessages none none none 5).1 =
      .ok demoOut) ∧
    demoOut.steps.map (fun s => s.step_number) = List.range' 1 demoOut.steps.length :=
  ⟨rfl, chat_with_tools_step_numbers demoReg demoLLM 0 1000 demoMessages
    none none none 5 demoOut rfl⟩

/-- C9 witness: the pairing claim evaluated on the two-turn demo run. -/
theorem chat_with_tools_tool_result_pairing_witness :
    ((chat_with_tools demoReg demoLLM 0 1000 demoMessages none none none 5).1 =
      .ok demoOut) ∧
    ((∀ s ∈ demoOut.steps, s.action = .tool_call →
      ∃ c r, s.tool_call = some c ∧ s.tool_result = some r ∧
        r.tool_call_id = c.id ∧ r.tool_name = c.name) ∧
     demoOut.results = demoOut.steps.filterMap (fun s => s.tool_result)) :=
  ⟨rfl, chat_with_tools_tool_result_pairing demoReg demoLLM 0 1000 demoMessages
    none none none 5 demoOut rfl⟩

/-- C2 witness: the amended normal-return claim evaluated on the
datetime tool's invalid-timezone return. -/
theorem runToolCall_normal_return_witness :
    (demoReg.get_tool demoToolCall.name = some dateTimeInvalidTzTool) ∧
    (dateTimeInvalidTzTool.execute demoToolCall.args = .ok dateTimeInvalidTzReturn) ∧
    runToolCall demoReg demoToolCall ⟨[], [], [], 1, []⟩ =
      { msgs := [.tool (pyValRepr (.pdict dateTimeInvalidTzReturn)) "call_1"],
        steps := [⟨1, .tool_call,
          some ⟨"call_1", "get_current_datetime", [("timezone", .pstr "Bad/Zone")]⟩,
          some ⟨"call_1", "get_current_datetime", dateTimeInvalidTzReturn,
            dictGetD dateTimeInvalidTzReturn "success" (.pbool true),
            dictGetD dateTimeInvalidTzReturn "error" .pnone, none⟩, none⟩],
        results := [⟨"call_1", "get_current_datetime", dateTimeInvalidTzReturn,
          dictGetD dateTimeInvalidTzReturn "success" (.pbool true),
          dictGetD dateTimeInvalidTzReturn "error" .pnone, none⟩],
        stepNumber := 2, llmCalls := [] } :=
  ⟨rfl, rfl, runToolCall_normal_return demoReg demoToolCall dateTimeInvalidTzTool
    dateTimeInvalidTzReturn ⟨[], [], [], 1, []⟩ rfl rfl⟩

/-- C3 witness: the amended unknown-tool claim evaluated on the demo
registry with the unknown requested name `"missing"`. -/
theorem chat_with_tools_unknown_tool_runtime_error_witness :
    (demoMessages ≠ []) ∧ (1 ≤ 5) ∧
    (0 ≤ (none : Option ℚ).getD 0 ∧ (none : Option ℚ).getD 0 ≤ 1) ∧
    (0 < (none : Option Int).getD 1000 ∧ (none : Option Int).getD 1000 ≤ 4000) ∧
    (∃ name ∈ ["missing"], demoReg.has_tool name = false) ∧
    ∃ m, chat_with_tools demoReg demoLLM 0 1000 demoMessages
        (some ["missing"]) none none 5 =
      (.error (.runtimeError ("Chat with tools failed: " ++ m)), []) :=
  ⟨by simp [demoMessages], by norm_num, by norm_num, by norm_num,
    ⟨"missing", by simp, rfl⟩,
    chat_with_tools_unknown_tool_runtime_error demoReg demoLLM 0 1000 demoMessages
      ["missing"] none none 5 (by simp [demoMessages]) (by norm_num) (by norm_num)
      (by norm_num) ⟨"missing", by simp, rfl⟩⟩

/-- C10 witness: the empty-registry claim evaluated with no registered
tools and an absent tool-name subset. -/
theorem chat_with_tools_empty_tools_error_witness :
    (demoMessages ≠ []) ∧ (1 ≤ 5) ∧
    (0 ≤ (none : Option ℚ).getD 0 ∧ (none : Option ℚ).getD 0 ≤ 1) ∧
    (0 < (none : Option Int).getD 1000 ∧ (none : Option Int).getD 1000 ≤ 4000) ∧
    (emptyReg.get_langchain_tools none = .ok []) ∧
    chat_with_tools emptyReg demoLLM 0 1000 demoMessages none none none 5 =
      (.error (.valueError ("No tools available. Requested: " ++ pyStrOptStrList none ++
        ", Available: " ++ pyStrStrList emptyReg.list_tools)), []) :=
  ⟨by simp [demoMessages], by norm_num, by norm_num, by norm_num, rfl,
    chat_with_tools_empty_tools_error emptyReg demoLLM 0 1000 demoMessages none none none 5
      (by simp [demoMessages]) (by norm_num) (by norm_num) (by norm_num) rfl⟩

/-- A token budget of zero with a length-based encoder, to force
overflow on any non-empty content. -/
def c5cb : ContextBuilder := ⟨0, String.length⟩

/-- A memory snapshot holding only short-term text. -/
def c5mc : MemoryContext := { short_term_context := "hello" }

/-- C5 witness: the overflow claim evaluated on a zero-budget builder
with non-empty short-term memory. -/
theorem build_context_overflow_full_context_witness :
    (c5cb.max_tokens <
      (c5cb.build_context (some c5mc) none none "memory").total_tokens_estimated) ∧
    ((c5cb.build_context (some c5mc) none none "memory").truncated = true ∧
     (c5cb.build_context (some c5mc) none none "memory").truncation_strategy =
       some "memory" ∧
     (∃ w, (c5cb.build_context (some c5mc) none none "memory").warnings = some w ∧
       w ≠ []) ∧
     ∀ M : Nat,
      (c5cb.build_context (some c5mc) none none "memory").short_term_history =
        (ContextBuilder.build_context ⟨M, c5cb.enc⟩ (some c5mc) none none
          "memory").short_term_history ∧
      (c5cb.build_context (some c5mc) none none "memory").semantic_facts =
        (ContextBuilder.build_context ⟨M, c5cb.enc⟩ (some c5mc) none none
          "memory").semantic_facts ∧
      (c5cb.build_context (some c5mc) none none "memory").user_profile =
        (ContextBuilder.build_context ⟨M, c5cb.enc⟩ (some c5mc) none none
          "memory").user_profile ∧
      (c5cb.build_context (some c5mc) none none "memory").episodic_summary =
        (ContextBuilder.build_context ⟨M, c5cb.enc⟩ (some c5mc) none none
          "memory").episodic_summary ∧
      (c5cb.build_context (some c5mc) none none "memory").procedural_patterns =
        (ContextBuilder.build_context ⟨M, c5cb.enc⟩ (some c5mc) none none
          "memory").procedural_patterns ∧
      (c5cb.build_context (some c5mc) none none "memory").rag_documents =
        (ContextBuilder.build_context ⟨M, c5cb.enc⟩ (some c5mc) none none
          "memory").rag_documents ∧
      (c5cb.build_context (some c5mc) none none "memory").rag_context =
        (ContextBuilder.build_context ⟨M, c5cb.enc⟩ (some c5mc) none none
          "memory").rag_context ∧
      (c5cb.build_context (some c5mc) none none "memory").tool_results =
        (ContextBuilder.build_context ⟨M, c5cb.enc⟩ (some c5mc) none none
          "memory").tool_results) :=
  ⟨by decide,
    build_context_overflow_full_context c5cb (some c5mc) none none "memory" (by decide)⟩

/-- A builder with an ample budget and a length-based encoder. -/
def c6cb : ContextBuilder := ⟨4000, String.length⟩

/-- A successful RAG result with exactly five sources. -/
def c6rr : RAGResult :=
  { success := true, sources := List.replicate 5 [("page_content", PyVal.pstr "doc")] }

/-- C6 witness: the isolation claim evaluated on five concrete RAG
documents with memory absent. -/
theorem build_context_memory_absent_isolated_witness :
    (c6rr.success = true) ∧ (c6rr.sources.length = 5) ∧
    ((c6cb.build_context none (some c6rr) none "balanced").rag_documents =
      some c6rr.sources ∧
     (c6cb.build_context none (some c6rr) none "balanced").short_term_history = "" ∧
     (c6cb.build_context none (some c6rr) none "balanced").semantic_facts = none ∧
     (c6cb.build_context none (some c6rr) none "balanced").user_profile = none ∧
     (c6cb.build_context none (some c6rr) none "balanced").episodic_summary = "" ∧
     (c6cb.build_context none (some c6rr) none "balanced").procedural_patterns = none ∧
     (∃ b, (c6cb.build_context none (some c6rr) none "balanced").token_breakdown =
        some b ∧
       b.short_term = 0 ∧ b.episodic = 0 ∧ b.semantic = 0 ∧ b.profile = 0 ∧
       b.procedural = 0) ∧
     format_for_prompt (c6cb.build_context none (some c6rr) none "balanced") =
       format_for_prompt
        { rag_documents :=
            (c6cb.build_context none (some c6rr) none "balanced").rag_documents,
          rag_context :=
            (c6cb.build_context none (some c6rr) none "balanced").rag_context,
          warnings :=
            (c6cb.build_context none (some c6rr) none "balanced").warnings }) :=
  ⟨rfl, rfl,
    build_context_memory_absent_isolated c6cb c6rr "balanced" rfl rfl⟩

/-- C7 witness: the containment claim evaluated on a concrete raising
tool, one remaining iteration of fuel after the failing turn. -/
theorem tool_error_contained_witness :
    (failReg.get_tool failToolCall.name = some failTool) ∧
    (failTool.execute failToolCall.args = .error "boom") ∧
    (failLLM.withTools ["fail_tool"] failState.msgs = ⟨"xx", [failToolCall]⟩) ∧
    (failToolCall ∈ [failToolCall]) ∧
    ((∀ st' : LoopState, runToolCall failReg failToolCall st' =
      { msgs := st'.msgs ++ [.tool "\x7b\x7d" "call_9"],
        steps := st'.steps ++ [⟨st'.stepNumber, .tool_call,
          some ⟨"call_9", "fail_tool", []⟩,
          some ⟨"call_9", "fail_tool", [], .pbool false,
            .pstr "Tool execution failed: boom", none⟩, none⟩],
        results := st'.results ++ [⟨"call_9", "fail_tool", [], .pbool false,
          .pstr "Tool execution failed: boom", none⟩],
        stepNumber := st'.stepNumber + 1,
        llmCalls := st'.llmCalls }) ∧
    agentLoop failReg failLLM ["fail_tool"] 3 2 failState =
      agentLoop failReg failLLM ["fail_tool"] 3 1
        (execToolCalls failReg [failToolCall]
          ⟨[.human "go", .ai "xx" [failToolCall]], [], [], 1, [true]⟩) ∧
    (⟨"call_9", "fail_tool", [], .pbool false,
        .pstr "Tool execution failed: boom", none⟩ : ToolResult) ∈
      (execToolCalls failReg [failToolCall]
        ⟨[.human "go", .ai "xx" [failToolCall]], [], [], 1, [true]⟩).results ∧
    ∃ more, more ≠ [] ∧
      (agentLoop failReg failLLM ["fail_tool"] 3 1
        (execToolCalls failReg [failToolCall]
          ⟨[.human "go", .ai "xx" [failToolCall]], [], [], 1, [true]⟩)).llmCalls =
      (execToolCalls failReg [failToolCall]
        ⟨[.human "go", .ai "xx" [failToolCall]], [], [], 1, [true]⟩).llmCalls ++ more) :=
  ⟨rfl, rfl, rfl, by simp,
    tool_error_contained failReg failLLM ["fail_tool"] 3 1 failState [failToolCall]
      failToolCall failTool "boom" "xx" rfl rfl rfl (by simp)⟩

end AgentLab
